import Mathlib

/-!
Shallow embedding of the solar-mapping backend services
(`src/backend/src/services/WeatherService.ts`, `SolarService.ts`,
`src/backend/src/routes/weather.ts`) and proofs of the specification's
testable properties.

Numeric values of the JavaScript code are embedded as rationals (ℚ),
except where the code uses `Math.cos`/`Math.PI`, which forces reals.
Each call to `Math.random()` becomes an explicit parameter `r` with the
hypothesis `0 ≤ r < 1`; per-iteration randomness becomes a stream
`ℕ → ...` so that each loop iteration draws from its own index.
-/

/-- `WeatherService.calculateSolarIrradiance` (private method):
`1000 * ((100 - cloudCover) / 100) * cos(|latitude| * π / 180)`. -/
noncomputable def calculateSolarIrradiance (cloudCover latitude : ℝ) : ℝ :=
  let baseIrradiance : ℝ := 1000
  let cloudReduction := (100 - cloudCover) / 100
  let latitudeReduction := Real.cos (|latitude| * Real.pi / 180)
  baseIrradiance * cloudReduction * latitudeReduction

/-- The record type of `SolarService.getSolarIrradiance` (interface `SolarData`);
string fields (`location`, `timestamp`) are omitted, numerics are rationals. -/
structure SolarData where
  coordinates : ℚ × ℚ
  solarIrradiance : ℚ
  predictedOutput : ℚ
  efficiency : ℚ
  dailyGeneration : ℚ
  monthlyGeneration : ℚ
  yearlyGeneration : ℚ
  peakHours : ℚ
  cloudCoverImpact : ℚ
deriving DecidableEq

/-- `SolarService.getSolarIrradiance(lat, lon)`.  The four `Math.random()`
calls are the parameters `r1` (base irradiance), `r2` (efficiency),
`r3` (peak hours), `r4` (cloud cover impact). -/
def getSolarIrradiance (lat lon r1 r2 r3 r4 : ℚ) : SolarData :=
  let baseIrradiance := 800 + r1 * 400
  let efficiency := 85 + r2 * 10
  { coordinates := (lat, lon)
    solarIrradiance := baseIrradiance
    predictedOutput := baseIrradiance * (efficiency / 100)
    efficiency := efficiency
    dailyGeneration := baseIrradiance * 8 * (efficiency / 100) / 1000
    monthlyGeneration := baseIrradiance * 8 * 30 * (efficiency / 100) / 1000
    yearlyGeneration := baseIrradiance * 8 * 365 * (efficiency / 100) / 1000
    peakHours := 6 + r3 * 4
    cloudCoverImpact := r4 * 30 }

/-- The record type of `SolarService.generatePredictions` (interface
`SolarPrediction`); the ISO date string is embedded as a day number. -/
structure SolarPrediction where
  dateDay : ℕ
  predictedIrradiance : ℚ
  predictedOutput : ℚ
  confidence : ℚ
  cloudCover : ℚ
  humidity : ℚ
  temperature : ℚ
deriving DecidableEq

/-- The five `Math.random()` draws of one iteration of the prediction loop:
base irradiance, cloud cover, confidence, humidity, temperature. -/
structure DayRandoms where
  rBase : ℚ
  rCloud : ℚ
  rConf : ℚ
  rHum : ℚ
  rTemp : ℚ

/-- One iteration of the loop body of `generatePredictions`:
`futureDate = currentDate + i` days, base irradiance `700 + r*500`,
cloud cover `r*80`, `adjustedIrradiance = base * (1 - cloudCover/200)`. -/
def mkPrediction (currentDay i : ℕ) (rnd : DayRandoms) : SolarPrediction :=
  let baseIrradiance := 700 + rnd.rBase * 500
  let cloudCover := rnd.rCloud * 80
  let adjustedIrradiance := baseIrradiance * (1 - cloudCover / 200)
  { dateDay := currentDay + i
    predictedIrradiance := adjustedIrradiance
    predictedOutput := adjustedIrradiance * 0.85
    confidence := 0.7 + rnd.rConf * 0.3
    cloudCover := cloudCover
    humidity := 40 + rnd.rHum * 40
    temperature := 20 + rnd.rTemp * 15 }

/-- `SolarService.generatePredictions(lat, lon, days)`: the `for` loop pushes
one prediction per `i ∈ [0, days)`, iteration `i` drawing from `stream i`. -/
def generatePredictions (lat lon : ℚ) (days : ℕ) (currentDay : ℕ)
    (stream : ℕ → DayRandoms) : List SolarPrediction :=
  let _ := (lat, lon)
  (List.range days).map (fun i => mkPrediction currentDay i (stream i))

/-- The region tag of `SolarService.analyzeRegion`. -/
inductive Region where
  | city
  | hill
  | rural
deriving DecidableEq

/-- The `efficiency` field of the `regionFactors` table in `analyzeRegion`. -/
def regionEfficiency : Region → ℚ
  | .city => 0.8
  | .hill => 0.95
  | .rural => 0.9

/-- The record returned by `SolarService.analyzeRegion`. -/
structure RegionAnalysis where
  region : Region
  coordinates : List (ℚ × ℚ)
  averageEfficiency : ℚ
  totalSites : ℕ
  estimatedCapacity : ℕ
deriving DecidableEq

/-- `SolarService.analyzeRegion(region, coordinates)`. -/
def analyzeRegion (region : Region) (coordinates : List (ℚ × ℚ)) :
    RegionAnalysis :=
  { region := region
    coordinates := coordinates
    averageEfficiency := regionEfficiency region
    totalSites := coordinates.length
    estimatedCapacity := coordinates.length * 100 }

/-- A default prediction, used only as the `List.getD` fallback. -/
def defaultPrediction : SolarPrediction :=
  { dateDay := 0, predictedIrradiance := 0, predictedOutput := 0
    confidence := 0, cloudCover := 0, humidity := 0, temperature := 0 }

/-- The record type of `WeatherService.getHistoricalWeather` (interface
`WeatherData`); the ISO timestamp is embedded as a day number (an `Int`,
since `Date` arithmetic in the source spans dates freely). -/
structure WeatherData where
  temperature : ℚ
  humidity : ℚ
  pressure : ℚ
  windSpeed : ℚ
  windDirection : ℚ
  cloudCover : ℚ
  visibility : ℚ
  uvIndex : ℚ
  solarIrradiance : ℚ
  timestampDay : Int
deriving DecidableEq

/-- The nine `Math.random()` draws of one iteration of the
`getHistoricalWeather` loop. -/
structure HistRandoms where
  rTemp : ℚ
  rHum : ℚ
  rPres : ℚ
  rWind : ℚ
  rDir : ℚ
  rCloud : ℚ
  rVis : ℚ
  rUv : ℚ
  rIrr : ℚ

/-- One record pushed by the `while` loop of `getHistoricalWeather`. -/
def mkHistRecord (day : Int) (rnd : HistRandoms) : WeatherData :=
  { temperature := 20 + rnd.rTemp * 15
    humidity := 40 + rnd.rHum * 40
    pressure := 1013 + rnd.rPres * 20
    windSpeed := rnd.rWind * 10
    windDirection := rnd.rDir * 360
    cloudCover := rnd.rCloud * 100
    visibility := 5 + rnd.rVis * 15
    uvIndex := rnd.rUv * 11
    solarIrradiance := 400 + rnd.rIrr * 600
    timestampDay := day }

/-- The `while (currentDate <= endDate)` loop of `getHistoricalWeather`:
push a record for `cur`, then advance `currentDate` by one day.
`idx` counts iterations so that iteration `k` draws from `stream k`. -/
def histLoop (endDay : Int) (stream : ℕ → HistRandoms) (cur : Int)
    (idx : ℕ) : List WeatherData :=
  if cur ≤ endDay then
    mkHistRecord cur (stream idx) :: histLoop endDay stream (cur + 1) (idx + 1)
  else []
termination_by (endDay + 1 - cur).toNat
decreasing_by
  simp_wf
  omega

/-- `WeatherService.getHistoricalWeather(lat, lon, startDate, endDate)`:
starts the loop at `startDate` with the first random draw. -/
def getHistoricalWeather (lat lon : ℚ) (startDay endDay : Int)
    (stream : ℕ → HistRandoms) : List WeatherData :=
  let _ := (lat, lon)
  histLoop endDay stream startDay 0

/-- A default weather record, used only as the `List.getD` fallback. -/
def defaultWeather : WeatherData :=
  mkHistRecord 0 ⟨0, 0, 0, 0, 0, 0, 0, 0, 0⟩

/-- JavaScript falsiness of `req.query.lat` in `!lat || !lon`: a query
parameter is falsy when absent (`undefined`) or the empty string. -/
def isFalsyParam : Option String → Bool
  | none => true
  | some s => s.isEmpty

/-- Body of an HTTP response of the weather route: either an error object
(which always carries an `error` field) or a serialized weather record. -/
inductive ResponseBody where
  | errorBody (error : String)
  | weatherBody (data : WeatherData)

/-- An HTTP response: status code plus JSON body. -/
structure HttpResponse where
  status : ℕ
  body : ResponseBody

/-- Whether the JSON body contains an `error` field. -/
def hasErrorField : ResponseBody → Bool
  | .errorBody _ => true
  | .weatherBody _ => false

/-- The handler of `GET /api/weather` in `src/backend/src/routes/weather.ts`:
if `!lat || !lon` it returns 400 with an `error` field before calling the
weather service; otherwise it calls `weatherService.getCurrentWeather` —
embedded as the parameter `service`, the outcome of that call — and
returns 200 with the data, or 500 with an `error` field if the service
throws. -/
def weatherRouteHandler (lat lon : Option String)
    (service : Except String WeatherData) : HttpResponse :=
  if isFalsyParam lat || isFalsyParam lon then
    { status := 400, body := .errorBody "Latitude and longitude are required" }
  else
    match service with
    | .ok d => { status := 200, body := .weatherBody d }
    | .error _ => { status := 500, body := .errorBody "Failed to fetch weather data" }

/-- Entry `i` of the prediction list (with a default out of range). -/
def predEntry (lat lon : ℚ) (days currentDay : ℕ) (stream : ℕ → DayRandoms)
    (i : ℕ) : SolarPrediction :=
  (generatePredictions lat lon days currentDay stream).getD i defaultPrediction

/-- Helper: indexing a mapped range. -/
theorem getD_map_range {α : Type} (f : ℕ → α) (d : α) (n i : ℕ) (h : i < n) :
    ((List.range n).map f).getD i d = f i := by
  simp [List.getD_eq_getElem?_getD, List.getElem?_map, List.getElem?_range, h]

/-- Helper: `predEntry` in range is the loop body at index `i`. -/
theorem predEntry_eq (lat lon : ℚ) (days currentDay : ℕ)
    (stream : ℕ → DayRandoms) (i : ℕ) (h : i < days) :
    predEntry lat lon days currentDay stream i
      = mkPrediction currentDay i (stream i) := by
  unfold predEntry generatePredictions
  exact getD_map_range _ _ _ _ h

/-- Claim C1: `calculateSolarIrradiance(cloudCover, latitude)` equals
`1000 × ((100 − cloudCover)/100) × cos(|latitude| × π/180)` for every
input, and full cloud cover (`cloudCover = 100`) yields `0` for every
latitude. -/
theorem calculateSolarIrradiance_formula (cloudCover latitude : ℝ) :
    calculateSolarIrradiance cloudCover latitude
      = 1000 * ((100 - cloudCover) / 100) * Real.cos (|latitude| * Real.pi / 180) ∧
    calculateSolarIrradiance 100 latitude = 0 := by
  refine ⟨rfl, ?_⟩
  show (1000 : ℝ) * ((100 - 100) / 100) * Real.cos (|latitude| * Real.pi / 180) = 0
  norm_num

/-- Claim C3: whatever `Math.random()` returns (any two values in
`[0,1)`), `getSolarIrradiance` yields `efficiency ∈ [85,95)` and
`solarIrradiance ∈ [800,1200)`. -/
theorem getSolarIrradiance_ranges (lat lon r1 r2 r3 r4 : ℚ)
    (h1 : 0 ≤ r1) (h1' : r1 < 1) (h2 : 0 ≤ r2) (h2' : r2 < 1) :
    85 ≤ (getSolarIrradiance lat lon r1 r2 r3 r4).efficiency ∧
    (getSolarIrradiance lat lon r1 r2 r3 r4).efficiency < 95 ∧
    800 ≤ (getSolarIrradiance lat lon r1 r2 r3 r4).solarIrradiance ∧
    (getSolarIrradiance lat lon r1 r2 r3 r4).solarIrradiance < 1200 := by
  simp only [getSolarIrradiance]
  refine ⟨by linarith, by linarith, by linarith, by linarith⟩

/-- Witness for C3 at `r1 = r2 = 1/2`. -/
theorem getSolarIrradiance_ranges_witness :
    85 ≤ (getSolarIrradiance 0 0 (1/2) (1/2) 0 0).efficiency ∧
    (getSolarIrradiance 0 0 (1/2) (1/2) 0 0).efficiency < 95 ∧
    800 ≤ (getSolarIrradiance 0 0 (1/2) (1/2) 0 0).solarIrradiance ∧
    (getSolarIrradiance 0 0 (1/2) (1/2) 0 0).solarIrradiance < 1200 :=
  getSolarIrradiance_ranges 0 0 (1/2) (1/2) 0 0
    (by norm_num) (by norm_num) (by norm_num) (by norm_num)

/-- Claim C4: in every record of `getSolarIrradiance`,
`dailyGeneration = solarIrradiance × 8 × (efficiency/100) / 1000` exactly,
`monthlyGeneration = 30 × dailyGeneration` and
`yearlyGeneration = 365 × dailyGeneration`. -/
theorem getSolarIrradiance_generation_formulas (lat lon r1 r2 r3 r4 : ℚ) :
    (getSolarIrradiance lat lon r1 r2 r3 r4).dailyGeneration
      = (getSolarIrradiance lat lon r1 r2 r3 r4).solarIrradiance * 8
        * ((getSolarIrradiance lat lon r1 r2 r3 r4).efficiency / 100) / 1000 ∧
    (getSolarIrradiance lat lon r1 r2 r3 r4).monthlyGeneration
      = 30 * (getSolarIrradiance lat lon r1 r2 r3 r4).dailyGeneration ∧
    (getSolarIrradiance lat lon r1 r2 r3 r4).yearlyGeneration
      = 365 * (getSolarIrradiance lat lon r1 r2 r3 r4).dailyGeneration := by
  simp only [getSolarIrradiance]
  refine ⟨trivial, by ring, by ring⟩

/-- Claim C6: `analyzeRegion` returns the fixed per-tag efficiency
constant (city 0.8, hill 0.95, rural 0.9), `totalSites` equal to the
coordinate count and `estimatedCapacity` equal to that count × 100; in
particular the hill example with two sites yields 0.95, 2 and 200. -/
theorem analyzeRegion_spec (region : Region) (coordinates : List (ℚ × ℚ)) :
    (analyzeRegion region coordinates).averageEfficiency
      = (match region with
         | .city => (0.8 : ℚ)
         | .hill => 0.95
         | .rural => 0.9) ∧
    (analyzeRegion region coordinates).totalSites = coordinates.length ∧
    (analyzeRegion region coordinates).estimatedCapacity
      = coordinates.length * 100 ∧
    analyzeRegion .hill [(28.6, 77.2), (29.0, 78.0)]
      = { region := .hill
          coordinates := [(28.6, 77.2), (29.0, 78.0)]
          averageEfficiency := 0.95
          totalSites := 2
          estimatedCapacity := 200 } := by
  refine ⟨?_, rfl, rfl, rfl⟩
  cases region <;> rfl

/-- Claim C2: `generatePredictions(lat, lon, days)` returns exactly
`days` entries, and entry `i` carries the date `i` days after the
current date. -/
theorem generatePredictions_length_dates (lat lon : ℚ) (days currentDay : ℕ)
    (stream : ℕ → DayRandoms) :
    (generatePredictions lat lon days currentDay stream).length = days ∧
    ∀ i, i < days →
      (predEntry lat lon days currentDay stream i).dateDay = currentDay + i := by
  constructor
  · simp [generatePredictions]
  · intro i h
    rw [predEntry_eq lat lon days currentDay stream i h]
    rfl

/-- Witness for C2 at `days = 3`, entry 1 dated one day after day 5. -/
theorem generatePredictions_length_dates_witness :
    (predEntry 0 0 3 5 (fun _ => ⟨0, 0, 0, 0, 0⟩) 1).dateDay = 5 + 1 :=
  (generatePredictions_length_dates 0 0 3 5 (fun _ => ⟨0, 0, 0, 0, 0⟩)).2 1
    (by norm_num)

/-- Claim C5: every prediction entry is built from a base irradiance in
`[700,1200)` and a cloud cover in `[0,80)`, its `predictedIrradiance`
equals `base × (1 − cloudCover/200)`, its `confidence` lies in
`[0.7,1.0)`, and entry `i` depends only on the random draws of
iteration `i` (entries are sampled independently). -/
theorem generatePredictions_sampling (lat lon : ℚ) (days currentDay : ℕ)
    (stream : ℕ → DayRandoms) (i : ℕ) (hi : i < days)
    (hb0 : 0 ≤ (stream i).rBase) (hb1 : (stream i).rBase < 1)
    (hc0 : 0 ≤ (stream i).rCloud) (hc1 : (stream i).rCloud < 1)
    (hf0 : 0 ≤ (stream i).rConf) (hf1 : (stream i).rConf < 1) :
    700 ≤ 700 + (stream i).rBase * 500 ∧
    700 + (stream i).rBase * 500 < 1200 ∧
    0 ≤ (predEntry lat lon days currentDay stream i).cloudCover ∧
    (predEntry lat lon days currentDay stream i).cloudCover < 80 ∧
    (predEntry lat lon days currentDay stream i).predictedIrradiance
      = (700 + (stream i).rBase * 500)
        * (1 - (predEntry lat lon days currentDay stream i).cloudCover / 200) ∧
    0.7 ≤ (predEntry lat lon days currentDay stream i).confidence ∧
    (predEntry lat lon days currentDay stream i).confidence < 1 ∧
    ∀ stream2 : ℕ → DayRandoms, stream2 i = stream i →
      predEntry lat lon days currentDay stream2 i
        = predEntry lat lon days currentDay stream i := by
  rw [predEntry_eq lat lon days currentDay stream i hi]
  refine ⟨by linarith, by linarith, ?_, ?_, rfl, ?_, ?_, ?_⟩
  · show (0 : ℚ) ≤ (stream i).rCloud * 80
    positivity
  · show (stream i).rCloud * 80 < 80
    nlinarith
  · show (0.7 : ℚ) ≤ 0.7 + (stream i).rConf * 0.3
    nlinarith
  · show (0.7 : ℚ) + (stream i).rConf * 0.3 < 1
    nlinarith
  · intro stream2 h2
    rw [predEntry_eq lat lon days currentDay stream2 i hi, h2]

/-- Witness for C5 at `days = 1`, `i = 0`, all draws `1/2`. -/
theorem generatePredictions_sampling_witness :
    (predEntry 0 0 1 0 (fun _ => ⟨1/2, 1/2, 1/2, 1/2, 1/2⟩) 0).confidence < 1 :=
  (generatePredictions_sampling 0 0 1 0 (fun _ => ⟨1/2, 1/2, 1/2, 1/2, 1/2⟩) 0
    (by norm_num) (by norm_num) (by norm_num) (by norm_num) (by norm_num)
    (by norm_num) (by norm_num)).2.2.2.2.2.2.1

/-- Claim C10: in every prediction entry, `predictedOutput` equals
`0.85 × predictedIrradiance`. -/
theorem generatePredictions_output_factor (lat lon : ℚ) (days currentDay : ℕ)
    (stream : ℕ → DayRandoms) (i : ℕ) (h : i < days) :
    (predEntry lat lon days currentDay stream i).predictedOutput
      = 0.85 * (predEntry lat lon days currentDay stream i).predictedIrradiance := by
  rw [predEntry_eq lat lon days currentDay stream i h]
  show ((700 : ℚ) + (stream i).rBase * 500)
      * (1 - (stream i).rCloud * 80 / 200) * 0.85
    = 0.85 * ((700 + (stream i).rBase * 500) * (1 - (stream i).rCloud * 80 / 200))
  ring

/-- Witness for C10 at `days = 1`, `i = 0`. -/
theorem generatePredictions_output_factor_witness :
    (predEntry 0 0 1 0 (fun _ => ⟨0, 0, 0, 0, 0⟩) 0).predictedOutput
      = 0.85 * (predEntry 0 0 1 0 (fun _ => ⟨0, 0, 0, 0, 0⟩) 0).predictedIrradiance :=
  generatePredictions_output_factor 0 0 1 0 (fun _ => ⟨0, 0, 0, 0, 0⟩) 0
    (by norm_num)

/-- Helper: the historical-weather loop starting at `cur` with draw index
`idx` produces `(endDay + 1 - cur).toNat` records, record `i` being the
one for day `cur + i` from draw `idx + i`. -/
theorem histLoop_spec (endDay : Int) (stream : ℕ → HistRandoms) :
    ∀ (n : ℕ) (cur : Int) (idx : ℕ), (endDay + 1 - cur).toNat = n →
      (histLoop endDay stream cur idx).length = n ∧
      ∀ i, i < n → (histLoop endDay stream cur idx).getD i defaultWeather
        = mkHistRecord (cur + i) (stream (idx + i)) := by
  intro n
  induction n with
  | zero =>
    intro cur idx h
    have hgt : ¬ cur ≤ endDay := by omega
    rw [histLoop]
    simp [hgt]
  | succ m ih =>
    intro cur idx h
    have hle : cur ≤ endDay := by omega
    have h' : (endDay + 1 - (cur + 1)).toNat = m := by omega
    obtain ⟨ihl, ihg⟩ := ih (cur + 1) (idx + 1) h'
    rw [histLoop]
    simp only [hle, if_true]
    constructor
    · simp [ihl]
    · intro i hi
      match i with
      | 0 => simp
      | j + 1 =>
        have hj : j < m := by omega
        rw [List.getD_cons_succ, ihg j hj]
        have harg : cur + 1 + (j : ℤ) = cur + ((j : ℕ) + 1 : ℕ) := by
          push_cast
          ring
        rw [harg]
        have hidx : idx + 1 + j = idx + (j + 1) := by omega
        rw [hidx]

/-- Claim C7: `getHistoricalWeather(lat, lon, start, end)` returns one
record per calendar day in `[start, end]` — the list has
`end − start + 1` entries (clamped at zero) and entry `i` is timestamped
on day `start + i` — and is empty when `start > end`. -/
theorem getHistoricalWeather_days (lat lon : ℚ) (startDay endDay : Int)
    (stream : ℕ → HistRandoms) :
    (getHistoricalWeather lat lon startDay endDay stream).length
      = (endDay + 1 - startDay).toNat ∧
    (∀ i, i < (endDay + 1 - startDay).toNat →
      ((getHistoricalWeather lat lon startDay endDay stream).getD i
          defaultWeather).timestampDay
        = startDay + i) ∧
    (startDay > endDay → getHistoricalWeather lat lon startDay endDay stream = []) := by
  obtain ⟨hl, hg⟩ :=
    histLoop_spec endDay stream ((endDay + 1 - startDay).toNat) startDay 0 rfl
  refine ⟨hl, ?_, ?_⟩
  · intro i hi
    show ((histLoop endDay stream startDay 0).getD i defaultWeather).timestampDay
      = startDay + i
    rw [hg i hi]
    rfl
  · intro hgt
    have h0 : (endDay + 1 - startDay).toNat = 0 := by omega
    show histLoop endDay stream startDay 0 = []
    exact List.length_eq_zero.mp (by rw [hl, h0])

/-- Witness for C7: `start = 5 > end = 3` yields the empty list. -/
theorem getHistoricalWeather_days_witness :
    getHistoricalWeather 0 0 5 3 (fun _ => ⟨0, 0, 0, 0, 0, 0, 0, 0, 0⟩) = [] :=
  (getHistoricalWeather_days 0 0 5 3 (fun _ => ⟨0, 0, 0, 0, 0, 0, 0, 0, 0⟩)).2.2
    (by norm_num)

/-- Claim C8: when `lat` or `lon` is missing (falsy), the `/api/weather`
handler answers 400 with an `error` field, and the response does not
depend on the weather service at all (the service is never consulted). -/
theorem weatherRoute_missing_params (lat lon : Option String)
    (service : Except String WeatherData)
    (h : isFalsyParam lat = true ∨ isFalsyParam lon = true) :
    (weatherRouteHandler lat lon service).status = 400 ∧
    hasErrorField (weatherRouteHandler lat lon service).body = true ∧
    ∀ service2, weatherRouteHandler lat lon service2
      = weatherRouteHandler lat lon service := by
  have hcond : (isFalsyParam lat || isFalsyParam lon) = true := by
    rcases h with h | h <;> simp [h]
  refine ⟨?_, ?_, ?_⟩
  · simp [weatherRouteHandler, hcond]
  · simp [weatherRouteHandler, hcond, hasErrorField]
  · intro service2
    simp [weatherRouteHandler, hcond]

/-- Witness for C8: request with no `lat` and `lon = "77.2090"`. -/
theorem weatherRoute_missing_params_witness :
    (weatherRouteHandler none (some "77.2090") (Except.error "e")).status = 400 ∧
    hasErrorField (weatherRouteHandler none (some "77.2090") (Except.error "e")).body
      = true :=
  ⟨(weatherRoute_missing_params none (some "77.2090") (Except.error "e")
      (Or.inl rfl)).1,
   (weatherRoute_missing_params none (some "77.2090") (Except.error "e")
      (Or.inl rfl)).2.1⟩

/-- Counterexample to C9: with `lat = "abc"` (present but non-numeric)
and `lon = "1.0"`, the handler does not answer 400 — the truthiness
check passes, the service is called, and its failure surfaces as 500. -/
theorem weatherRoute_invalid_param_counterexample :
    (weatherRouteHandler (some "abc") (some "1.0")
        (Except.error "Failed to fetch weather data")).status = 500 ∧
    ¬ (weatherRouteHandler (some "abc") (some "1.0")
        (Except.error "Failed to fetch weather data")).status = 400 := by
  exact ⟨rfl, by decide⟩

/-- Claim C9 as amended: the handler rejects with 400 only missing or
empty parameters; a present non-empty `lat` and `lon` (numeric or not,
e.g. a non-numeric string parsed to NaN) is forwarded to the weather
service, and the response is 200 on service success or 500 with an
`error` field on service failure — never 400. -/
theorem weatherRoute_invalid_param_amended (lat lon : String)
    (hlat : lat.isEmpty = false) (hlon : lon.isEmpty = false)
    (service : Except String WeatherData) :
    (weatherRouteHandler (some lat) (some lon) service).status ≠ 400 ∧
    ∀ e, service = Except.error e →
      (weatherRouteHandler (some lat) (some lon) service).status = 500 ∧
      hasErrorField (weatherRouteHandler (some lat) (some lon) service).body
        = true := by
  have hcond : (isFalsyParam (some lat) || isFalsyParam (some lon)) = false := by
    simp [isFalsyParam, hlat, hlon]
  constructor
  · cases service with
    | ok d => simp [weatherRouteHandler, hcond]
    | error e => simp [weatherRouteHandler, hcond]
  · intro e he
    subst he
    simp [weatherRouteHandler, hcond, hasErrorField]

/-- Witness for the amended C9 at `lat = "abc"`, `lon = "1.0"`. -/
theorem weatherRoute_invalid_param_amended_witness :
    (weatherRouteHandler (some "abc") (some "1.0") (Except.error "x")).status ≠ 400 :=
  (weatherRoute_invalid_param_amended "abc" "1.0" rfl rfl (Except.error "x")).1
